import Mathlib

/-!
Shallow embedding of the lofi_rs terminal radio player (src/main.rs, src/ui.rs).

The program keeps a `VolumeControl` record (volume, mute flag, pre-mute
volume, backend kind, optional mpv IPC socket path), a station index into a
fixed two-element station list, and a `UiState` snapshot.  The event loop
dispatches key presses to handlers that mutate this state and either apply
changes in place over the backend control channel or kill and respawn the
player process with freshly built launch arguments.

IO outcomes (socket connect success, socket write success, the child pid)
are modelled as explicit boolean/option parameters threaded into the
functions that inspect them, so each handler becomes a pure function from
state and IO-outcome to state plus an optional respawn record.
-/

namespace LofiRs

/-- `enum PlayerType` from src/main.rs. -/
inductive PlayerType where
  | Ffplay
  | Mpv
  | Afplay
deriving DecidableEq, Repr

/-- `struct VolumeControl` from src/main.rs (volume is a `u32` kept in 0..=100). -/
structure VolumeControl where
  volume : Nat
  player_type : PlayerType
  mpv_socket : Option String
  muted : Bool
  volume_before_mute : Nat
deriving DecidableEq, Repr

/-- `VolumeControl::new`: default volume 70, unmuted, no socket. -/
def VolumeControl.new (pt : PlayerType) : VolumeControl :=
  { volume := 70
    player_type := pt
    mpv_socket := none
    muted := false
    volume_before_mute := 70 }

/-- `VolumeControl::increase_volume`: `self.volume = (self.volume + 5).min(100)`. -/
def increase_volume (s : VolumeControl) : VolumeControl :=
  { s with volume := min (s.volume + 5) 100 }

/-- `VolumeControl::decrease_volume`: `self.volume = self.volume.saturating_sub(5)`
(Nat subtraction saturates at 0 exactly like `u32::saturating_sub`). -/
def decrease_volume (s : VolumeControl) : VolumeControl :=
  { s with volume := s.volume - 5 }

/-- `VolumeControl::toggle_mute`. -/
def toggle_mute (s : VolumeControl) : VolumeControl :=
  if s.muted then
    { s with volume := s.volume_before_mute, muted := false }
  else
    { s with volume_before_mute := s.volume, volume := 0, muted := true }

/-- `VolumeControl::apply_volume`, with the two IO outcomes it inspects made
explicit: `conn` is whether `UnixStream::connect` on the mpv socket succeeds,
`wr` whether the subsequent `write_all` succeeds.  Note the source ignores a
failed connect (`if let Ok(mut stream) = ...` with no else branch) and falls
through to `Ok(())`; only a missing socket or a failed write yield `Err` for
mpv.  Ffplay always yields `Err`; afplay always yields `Ok`. -/
def apply_volume (s : VolumeControl) (conn wr : Bool) : Except String Unit :=
  match s.player_type with
  | .Mpv =>
    match s.mpv_socket with
    | some _ =>
      if conn then
        if wr then .ok () else .error "write failed"
      else
        .ok ()
    | none => .error "MPV IPC not available, restart needed"
  | .Ffplay => .error "FFplay restart needed"
  | .Afplay => .ok ()

/-- `VolumeControl::apply_mute` (unix configuration).  `pconn`/`pwrite` are the
connect/write outcomes of the pause-command attempt over the mpv socket;
`vconn`/`vwrite` are the outcomes used by a nested `apply_volume` fallback;
`childPid` is `child.id()`.  Mpv with a reachable socket sends a pause
command in place; afplay with a live pid sends SIGSTOP/SIGCONT in place;
everything else falls back to `apply_volume`. -/
def apply_mute (s : VolumeControl) (pconn pwrite vconn vwrite : Bool)
    (childPid : Option Nat) : Except String Unit :=
  match s.player_type with
  | .Mpv =>
    match s.mpv_socket with
    | some _ =>
      if pconn then
        if pwrite then .ok () else .error "write failed"
      else
        apply_volume s vconn vwrite
    | none => apply_volume s vconn vwrite
  | .Ffplay => apply_volume s vconn vwrite
  | .Afplay =>
    match childPid with
    | some _ => .ok ()
    | none => apply_volume s vconn vwrite

/-- `build_player_args` from src/main.rs; `pid` models `std::process::id()`,
used to derive the per-process mpv socket path. -/
def build_player_args (pt : PlayerType) (stream_url : String) (volume : Nat)
    (pid : Nat) : String × List String × Option String :=
  match pt with
  | .Ffplay =>
    ("ffplay",
     ["-nodisp", "-autoexit", "-loglevel", "quiet", "-volume",
      toString volume, stream_url],
     none)
  | .Mpv =>
    let socket_path := "/tmp/mpv_lofi_" ++ toString pid ++ ".sock"
    ("mpv",
     ["--no-video", "--quiet", "--input-ipc-server", socket_path,
      "--volume", toString volume, stream_url],
     some socket_path)
  | .Afplay =>
    ("sh", ["-c", "curl -s \x27" ++ stream_url ++ "\x27 | afplay -"], none)

/-- The recurring `if let Some(s) = new_socket { vol.mpv_socket = Some(s); }`
pattern that follows every `build_player_args` call in the event loop. -/
def set_socket (s : VolumeControl) (sock : Option String) : VolumeControl :=
  match sock with
  | some sp => { s with mpv_socket := some sp }
  | none => s

/-- `struct Station` from src/ui.rs. -/
structure Station where
  name : String
  url : String
deriving DecidableEq, Repr

/-- The fixed `STATIONS` list from src/ui.rs. -/
def STATIONS : List Station :=
  [{ name := "Lofi 1", url := "https://stream.zeno.fm/0r0xa792kwzuv" },
   { name := "Lofi 2", url := "https://stream.zeno.fm/v5reddyk8rhvv" }]

/-- `struct UiState` from src/ui.rs (elapsed reduced to whole seconds). -/
structure UiState where
  station_index : Nat
  volume : Nat
  muted : Bool
  elapsed : Nat
deriving DecidableEq, Repr

/-- `UiState::new`. -/
def UiState.new : UiState :=
  { station_index := 0, volume := 70, muted := false, elapsed := 0 }

/-- `bar_len` in `draw_ui` (src/ui.rs line 81). -/
def bar_len : Nat := 30

/-- The `filled` computation of the volume bar in `draw_ui`
(src/ui.rs lines 82-86): 0 while muted, otherwise `(volume * 30) / 100`
in `u32` arithmetic.  The subsequent `"-".repeat((bar_len - filled) as usize)`
underflows (panics) exactly when this value exceeds `bar_len`. -/
def filledBar (st : UiState) : Nat :=
  if st.muted then 0 else st.volume * bar_len / 100

/-- Previous-station index update (src/main.rs line 410):
`if station_index == 0 then len - 1 else station_index - 1`. -/
def prevIndex (len i : Nat) : Nat :=
  if i = 0 then len - 1 else i - 1

/-- Next-station index update (src/main.rs line 448): `(i + 1) % len`. -/
def nextIndex (len i : Nat) : Nat :=
  (i + 1) % len

/-- Looks up the value following a `-volume` or `--volume` flag in a launch
argument list: the volume the spawned player is asked to start at. -/
def volumeArgOf : List String → Option String
  | [] => none
  | [_] => none
  | a :: b :: rest =>
    if a = "-volume" ∨ a = "--volume" then some b else volumeArgOf (b :: rest)

/-- The F11/Up key handler (src/main.rs lines 323-361): bump the volume
unless muted, try `apply_volume` in place, and on failure kill-and-respawn
with the just-updated volume (recording the fresh mpv socket if any).
Returns the new `VolumeControl` and the respawn command, when one happened. -/
def handleVolumeUp (url : String) (pid : Nat) (conn wr : Bool)
    (s : VolumeControl) :
    VolumeControl × Option (String × List String × Option String) :=
  let s1 := if s.muted then s else increase_volume s
  let current_vol := s1.volume
  if (apply_volume s1 conn wr).isOk then
    (s1, none)
  else
    let r := build_player_args s1.player_type url current_vol pid
    (set_socket s1 r.2.2, some r)

/-- The F10/Down key handler (src/main.rs lines 363-401), mirror image of
`handleVolumeUp` with `decrease_volume`. -/
def handleVolumeDown (url : String) (pid : Nat) (conn wr : Bool)
    (s : VolumeControl) :
    VolumeControl × Option (String × List String × Option String) :=
  let s1 := if s.muted then s else decrease_volume s
  let current_vol := s1.volume
  if (apply_volume s1 conn wr).isOk then
    (s1, none)
  else
    let r := build_player_args s1.player_type url current_vol pid
    (set_socket s1 r.2.2, some r)

/-- Result of a station-switch handler: new station index, new control state,
the respawn launch command (a switch always respawns), and whether
`apply_mute` was re-applied to the fresh child. -/
structure SwitchResult where
  station_index : Nat
  vc : VolumeControl
  respawn : String × List String × Option String
  muteReapplied : Bool
deriving Repr

/-- The F7/Left and F9/Right station-switch handlers (src/main.rs lines
403-477); `forward = true` is next (F9), `false` is previous (F7).  The
handler moves the index with wraparound, unconditionally kill-and-respawns at
the current stored volume against the new station URL, and if the session was
muted re-asserts `muted` and re-applies mute to the fresh process. -/
def handleStationSwitch (forward : Bool) (pid : Nat) (i : Nat)
    (s : VolumeControl) : SwitchResult :=
  let current_vol := s.volume
  let is_muted := s.muted
  let j := if forward then nextIndex STATIONS.length i else prevIndex STATIONS.length i
  let url := (STATIONS.getD j { name := "", url := "" }).url
  let r := build_player_args s.player_type url current_vol pid
  let s1 := set_socket s r.2.2
  let s2 := if is_muted then { s1 with muted := true } else s1
  { station_index := j, vc := s2, respawn := r, muteReapplied := is_muted }

/-- The F8 play/pause key handler (src/main.rs lines 479-516): toggle the
mute flag, try `apply_mute` in place, and on failure kill-and-respawn at the
new target volume (0 when muting, the restored value when unmuting). -/
def handleF8 (url : String) (pid : Nat) (pconn pwrite vconn vwrite : Bool)
    (childPid : Option Nat) (s : VolumeControl) :
    VolumeControl × Option (String × List String × Option String) :=
  let s1 := toggle_mute s
  let target_vol := s1.volume
  if (apply_mute s1 pconn pwrite vconn vwrite childPid).isOk then
    (s1, none)
  else
    let r := build_player_args s1.player_type url target_vol pid
    (set_socket s1 r.2.2, some r)

/-- The F12/m/M mute key handler (src/main.rs lines 517-549): toggle the
mute flag and then ALWAYS kill-and-respawn at the new target volume — no
in-place attempt is made on this path. -/
def handleF12 (url : String) (pid : Nat) (s : VolumeControl) :
    VolumeControl × (String × List String × Option String) :=
  let s1 := toggle_mute s
  let target_vol := s1.volume
  let r := build_player_args s1.player_type url target_vol pid
  (set_socket s1 r.2.2, r)

/-- A volume-up or volume-down request, for reasoning about operation
sequences. -/
inductive VolOp where
  | up
  | down
deriving DecidableEq, Repr

/-- One volume operation applied to the control state. -/
def applyVolOp (s : VolumeControl) : VolOp → VolumeControl
  | .up => increase_volume s
  | .down => decrease_volume s

/-- A sequence of volume operations applied left to right. -/
def applyVolOps (s : VolumeControl) (ops : List VolOp) : VolumeControl :=
  ops.foldl applyVolOp s

/-- One station-navigation key press acting on the station index
(`true` = next/F9, `false` = previous/F7), as performed by the switch
handlers. -/
def applyNavOp (len : Nat) (i : Nat) (forward : Bool) : Nat :=
  if forward then nextIndex len i else prevIndex len i

/-- A sequence of station-navigation key presses applied left to right. -/
def applyNavOps (len : Nat) (i : Nat) (ops : List Bool) : Nat :=
  ops.foldl (applyNavOp len) i

/-- The six state-changing key operations of the event loop that touch the
volume/mute/station state. -/
inductive Op where
  | volUp
  | volDown
  | muteF8
  | muteF12
  | stationPrev
  | stationNext
deriving DecidableEq, Repr

/-- The IO outcomes a single event-loop iteration can observe (stream url in
use, process id, connect/write outcomes of the direct and nested socket
attempts, and the child pid). -/
structure Oracle where
  url : String
  pid : Nat
  conn : Bool
  wr : Bool
  pconn : Bool
  pwrite : Bool
  vconn : Bool
  vwrite : Bool
  childPid : Option Nat

/-- One event-loop iteration acting on (station index, control state): the
key operation dispatched to its handler, with IO outcomes supplied by the
oracle. -/
def step (op : Op) (o : Oracle) (st : Nat × VolumeControl) : Nat × VolumeControl :=
  match op with
  | .volUp => (st.1, (handleVolumeUp o.url o.pid o.conn o.wr st.2).1)
  | .volDown => (st.1, (handleVolumeDown o.url o.pid o.conn o.wr st.2).1)
  | .muteF8 =>
    (st.1, (handleF8 o.url o.pid o.pconn o.pwrite o.vconn o.vwrite o.childPid st.2).1)
  | .muteF12 => (st.1, (handleF12 o.url o.pid st.2).1)
  | .stationPrev =>
    let r := handleStationSwitch false o.pid st.1 st.2
    (r.station_index, r.vc)
  | .stationNext =>
    let r := handleStationSwitch true o.pid st.1 st.2
    (r.station_index, r.vc)

/-- A sequence of event-loop iterations applied left to right. -/
def run (l : List (Op × Oracle)) (st : Nat × VolumeControl) : Nat × VolumeControl :=
  l.foldl (fun acc p => step p.1 p.2 acc) st

/-- The session-state invariant maintained by the event loop: while muted the
stored volume itself is 0, and both volume fields stay within [0,100]. -/
def VCInv (s : VolumeControl) : Prop :=
  (s.muted = true → s.volume = 0) ∧ s.volume ≤ 100 ∧ s.volume_before_mute ≤ 100

/-! ## Theorems -/

@[simp]
theorem set_socket_volume (s : VolumeControl) (sock : Option String) :
    (set_socket s sock).volume = s.volume := by
  cases sock <;> rfl

@[simp]
theorem set_socket_muted (s : VolumeControl) (sock : Option String) :
    (set_socket s sock).muted = s.muted := by
  cases sock <;> rfl

@[simp]
theorem set_socket_volume_before_mute (s : VolumeControl) (sock : Option String) :
    (set_socket s sock).volume_before_mute = s.volume_before_mute := by
  cases sock <;> rfl

@[simp]
theorem set_socket_player_type (s : VolumeControl) (sock : Option String) :
    (set_socket s sock).player_type = s.player_type := by
  cases sock <;> rfl

@[simp]
theorem toggle_mute_player_type (s : VolumeControl) :
    (toggle_mute s).player_type = s.player_type := by
  unfold toggle_mute; split <;> rfl

@[simp]
theorem toggle_mute_mpv_socket (s : VolumeControl) :
    (toggle_mute s).mpv_socket = s.mpv_socket := by
  unfold toggle_mute; split <;> rfl

theorem applyVolOp_volume_le (s : VolumeControl) (op : VolOp)
    (h : s.volume ≤ 100) : (applyVolOp s op).volume ≤ 100 := by
  cases op <;> (simp [applyVolOp, increase_volume, decrease_volume]; try omega)

theorem applyVolOps_volume_le (ops : List VolOp) :
    ∀ s : VolumeControl, s.volume ≤ 100 → (applyVolOps s ops).volume ≤ 100 := by
  induction ops with
  | nil => intro s h; simpa [applyVolOps] using h
  | cons op rest ih =>
    intro s h
    simpa [applyVolOps, List.foldl_cons] using ih _ (applyVolOp_volume_le s op h)

/-- C1: starting from any volume in [0,100], the stored volume stays within
[0,100] under every sequence of volume-up/volume-down operations; one
volume-up from volume v yields min(v+5,100), one volume-down yields
max(v-5,0), and any step that does not hit a bound changes the volume by
exactly 5. -/
theorem claim1_volume_saturation (s : VolumeControl) (h : s.volume ≤ 100) :
    (increase_volume s).volume = min (s.volume + 5) 100 ∧
    ((decrease_volume s).volume : Int) = max ((s.volume : Int) - 5) 0 ∧
    (s.volume + 5 ≤ 100 → (increase_volume s).volume = s.volume + 5) ∧
    (5 ≤ s.volume → (decrease_volume s).volume + 5 = s.volume) ∧
    (∀ ops : List VolOp, (applyVolOps s ops).volume ≤ 100) := by
  refine ⟨?_, ?_, ?_, ?_, fun ops => applyVolOps_volume_le ops s h⟩
  · simp [increase_volume]
  · simp [decrease_volume]; omega
  · intro hle; simp [increase_volume]; omega
  · intro hge; simp [decrease_volume]; omega

/-- Witness for C1 at the spec's own example: volume 98, one volume-up
saturates to 100 (not 103), and a volume-down from 98 yields 93. -/
theorem claim1_volume_saturation_witness :
    (increase_volume (VolumeControl.mk 98 PlayerType.Ffplay none false 70)).volume = 100 ∧
    (decrease_volume (VolumeControl.mk 98 PlayerType.Ffplay none false 70)).volume = 93 := by
  have h := claim1_volume_saturation
    (VolumeControl.mk 98 PlayerType.Ffplay none false 70) (by decide)
  exact ⟨by rw [h.1]; decide, by have h2 := h.2.2.2.1 (by decide); revert h2; decide⟩

/-- C2: toggle_mute on an unmuted state snapshots volume into
volume_before_mute, zeroes volume and sets muted; on a muted state it
restores volume from volume_before_mute and clears muted; hence toggling
twice from any unmuted state restores the original volume and mute flag. -/
theorem claim2_toggle_mute_roundtrip (s : VolumeControl) :
    (s.muted = false →
      toggle_mute s =
        { s with volume_before_mute := s.volume, volume := 0, muted := true }) ∧
    (s.muted = true →
      toggle_mute s = { s with volume := s.volume_before_mute, muted := false }) ∧
    (s.muted = false →
      (toggle_mute (toggle_mute s)).volume = s.volume ∧
      (toggle_mute (toggle_mute s)).muted = false) := by
  refine ⟨fun h => ?_, fun h => ?_, fun h => ?_⟩
  · simp [toggle_mute, h]
  · simp [toggle_mute, h]
  · simp [toggle_mute, h]

/-- Witness for C2: from the initial state (volume 70, unmuted), one toggle
mutes at volume 0 and a second toggle restores volume 70 unmuted. -/
theorem claim2_toggle_mute_roundtrip_witness :
    (toggle_mute (VolumeControl.new PlayerType.Mpv)).volume = 0 ∧
    (toggle_mute (VolumeControl.new PlayerType.Mpv)).muted = true ∧
    (toggle_mute (toggle_mute (VolumeControl.new PlayerType.Mpv))).volume = 70 ∧
    (toggle_mute (toggle_mute (VolumeControl.new PlayerType.Mpv))).muted = false := by
  have h := claim2_toggle_mute_roundtrip (VolumeControl.new PlayerType.Mpv)
  have h1 := h.1 rfl
  have h3 := h.2.2 rfl
  refine ⟨by rw [h1], by rw [h1], h3.1, h3.2⟩

theorem handleVolumeUp_fields (url : String) (pid : Nat) (conn wr : Bool)
    (s : VolumeControl) :
    (handleVolumeUp url pid conn wr s).1.volume =
      (if s.muted then s else increase_volume s).volume ∧
    (handleVolumeUp url pid conn wr s).1.muted = s.muted ∧
    (handleVolumeUp url pid conn wr s).1.volume_before_mute = s.volume_before_mute := by
  unfold handleVolumeUp
  cases hm : s.muted <;>
    (simp only [hm, Bool.false_eq_true, if_false, if_true]
     split <;> simp [increase_volume, hm])

theorem handleVolumeDown_fields (url : String) (pid : Nat) (conn wr : Bool)
    (s : VolumeControl) :
    (handleVolumeDown url pid conn wr s).1.volume =
      (if s.muted then s else decrease_volume s).volume ∧
    (handleVolumeDown url pid conn wr s).1.muted = s.muted ∧
    (handleVolumeDown url pid conn wr s).1.volume_before_mute = s.volume_before_mute := by
  unfold handleVolumeDown
  cases hm : s.muted <;>
    (simp only [hm, Bool.false_eq_true, if_false, if_true]
     split <;> simp [decrease_volume, hm])

/-- C3: while muted, the volume-up and volume-down key handlers leave the
stored volume, the muted flag and volume_before_mute unchanged, for every IO
outcome (the operation is still processed: the handler may still attempt
apply_volume and even respawn, but the three fields do not move). -/
theorem claim3_muted_volume_frame (url : String) (pid : Nat) (conn wr : Bool)
    (s : VolumeControl) (h : s.muted = true) :
    ((handleVolumeUp url pid conn wr s).1.volume = s.volume ∧
     (handleVolumeUp url pid conn wr s).1.muted = s.muted ∧
     (handleVolumeUp url pid conn wr s).1.volume_before_mute = s.volume_before_mute) ∧
    ((handleVolumeDown url pid conn wr s).1.volume = s.volume ∧
     (handleVolumeDown url pid conn wr s).1.muted = s.muted ∧
     (handleVolumeDown url pid conn wr s).1.volume_before_mute = s.volume_before_mute) := by
  have hu := handleVolumeUp_fields url pid conn wr s
  have hd := handleVolumeDown_fields url pid conn wr s
  rw [h] at hu hd
  simp only [if_true] at hu hd
  rw [h]
  exact ⟨hu, hd⟩

/-- Witness for C3: a muted mpv state at stored volume 0; a volume-up is
accepted (and, the socket write failing, even respawns) yet the stored
volume, the muted flag and volume_before_mute are all unchanged. -/
theorem claim3_muted_volume_frame_witness :
    (VolumeControl.mk 0 PlayerType.Mpv (some "/tmp/mpv_lofi_1.sock") true 70).muted = true ∧
    (handleVolumeUp "u" 1 true false
      (VolumeControl.mk 0 PlayerType.Mpv (some "/tmp/mpv_lofi_1.sock") true 70)).1.volume = 0 ∧
    (handleVolumeUp "u" 1 true false
      (VolumeControl.mk 0 PlayerType.Mpv (some "/tmp/mpv_lofi_1.sock") true 70)).1.muted = true ∧
    (handleVolumeUp "u" 1 true false
      (VolumeControl.mk 0 PlayerType.Mpv (some "/tmp/mpv_lofi_1.sock") true 70)).1.volume_before_mute = 70 := by
  have h := claim3_muted_volume_frame "u" 1 true false
    (VolumeControl.mk 0 PlayerType.Mpv (some "/tmp/mpv_lofi_1.sock") true 70) rfl
  exact ⟨rfl, h.1.1, by rw [h.1.2.1], h.1.2.2⟩

theorem nextIndex_lt (len i : Nat) (h : 0 < len) : nextIndex len i < len :=
  Nat.mod_lt _ h

theorem prevIndex_lt (len i : Nat) (h : 0 < len) (hi : i < len) :
    prevIndex len i < len := by
  unfold prevIndex; split <;> omega

theorem applyNavOp_lt (len i : Nat) (b : Bool) (h : 0 < len) (hi : i < len) :
    applyNavOp len i b < len := by
  cases b
  · simpa [applyNavOp] using prevIndex_lt len i h hi
  · simpa [applyNavOp] using nextIndex_lt len i h

theorem applyNavOps_lt (len : Nat) (h : 0 < len) (ops : List Bool) :
    ∀ i, i < len → applyNavOps len i ops < len := by
  induction ops with
  | nil => intro i hi; simpa [applyNavOps] using hi
  | cons b rest ih =>
    intro i hi
    simpa [applyNavOps, List.foldl_cons] using ih _ (applyNavOp_lt len i b h hi)

theorem nextIndex_iterate (len : Nat) (i : Nat) (hi : i < len) :
    ∀ k, (nextIndex len)^[k] i = (i + k) % len := by
  intro k
  induction k with
  | zero => simp [Nat.mod_eq_of_lt hi]
  | succ k ih =>
    rw [Function.iterate_succ_apply', ih]
    simp [nextIndex, Nat.mod_add_mod, Nat.add_assoc]

theorem nextIndex_visits_nodup (len : Nat) (i : Nat) (hi : i < len) :
    ((List.range len).map (fun k => (nextIndex len)^[k] i)).Nodup := by
  have hfun : (fun k => (nextIndex len)^[k] i) = fun k => (i + k) % len :=
    funext fun k => nextIndex_iterate len i hi k
  rw [hfun]
  refine List.Nodup.map_on ?_ (List.nodup_range len)
  intro x hx y hy hxy
  rw [List.mem_range] at hx hy
  have hmx : i + x ≡ i + y [MOD len] := hxy
  have h2 : x % len = y % len := Nat.ModEq.add_left_cancel' i hmx
  rwa [Nat.mod_eq_of_lt hx, Nat.mod_eq_of_lt hy] at h2

theorem nextIndex_cycle (len : Nat) (i : Nat) (hi : i < len) :
    (nextIndex len)^[len] i = i := by
  rw [nextIndex_iterate len i hi len, Nat.add_mod_right, Nat.mod_eq_of_lt hi]

theorem nextIndex_visits_all (i : Nat) (hi : i < STATIONS.length) :
    ∀ j, j < STATIONS.length →
      j ∈ (List.range STATIONS.length).map (fun k => (nextIndex STATIONS.length)^[k] i) := by
  intro j hj
  have hi2 : i < 2 := hi
  have hj2 : j < 2 := hj
  have hcase : (i = 0 ∨ i = 1) ∧ (j = 0 ∨ j = 1) := by omega
  rcases hcase with ⟨hi0 | hi1, hj0 | hj1⟩ <;> subst_vars <;> decide

/-- C4: over the fixed station list, previous from index 0 lands on the last
index, next from the last index lands on 0, every other press moves the
index by exactly one, any sequence of presses keeps the index a valid
position, and `len` consecutive next presses visit every station exactly once
(no duplicates, all stations reached) before returning to the start. -/
theorem claim4_station_wraparound :
    prevIndex STATIONS.length 0 = STATIONS.length - 1 ∧
    nextIndex STATIONS.length (STATIONS.length - 1) = 0 ∧
    (∀ i, i < STATIONS.length → i ≠ 0 →
      prevIndex STATIONS.length i = i - 1) ∧
    (∀ i, i + 1 < STATIONS.length → nextIndex STATIONS.length i = i + 1) ∧
    (∀ i, i < STATIONS.length →
      nextIndex STATIONS.length i < STATIONS.length ∧
      prevIndex STATIONS.length i < STATIONS.length) ∧
    (∀ (ops : List Bool) i, i < STATIONS.length →
      applyNavOps STATIONS.length i ops < STATIONS.length) ∧
    (∀ i, i < STATIONS.length →
      ((List.range STATIONS.length).map
        (fun k => (nextIndex STATIONS.length)^[k] i)).Nodup ∧
      (∀ j, j < STATIONS.length →
        j ∈ (List.range STATIONS.length).map
          (fun k => (nextIndex STATIONS.length)^[k] i)) ∧
      (nextIndex STATIONS.length)^[STATIONS.length] i = i) := by
  have h0 : 0 < STATIONS.length := by decide
  refine ⟨by decide, by decide, ?_, ?_, ?_, ?_, ?_⟩
  · intro i _ hne
    simp [prevIndex, hne]
  · intro i hlt
    exact Nat.mod_eq_of_lt hlt
  · intro i hi
    exact ⟨nextIndex_lt _ i h0, prevIndex_lt _ i h0 hi⟩
  · intro ops i hi
    exact applyNavOps_lt _ h0 ops i hi
  · intro i hi
    exact ⟨nextIndex_visits_nodup _ i hi, nextIndex_visits_all i hi,
      nextIndex_cycle _ i hi⟩

/-- Witness for C4 on the concrete two-station list: previous from 0 is 1,
next from 1 is 0, the two-press next tour from 0 visits [0, 1] without
repetition and returns to 0, and a concrete press sequence keeps the index
valid. -/
theorem claim4_station_wraparound_witness :
    prevIndex STATIONS.length 0 = 1 ∧
    nextIndex STATIONS.length 1 = 0 ∧
    applyNavOps STATIONS.length 0 [true, false, false, true] < STATIONS.length ∧
    ((List.range STATIONS.length).map
      (fun k => (nextIndex STATIONS.length)^[k] 0)).Nodup ∧
    (nextIndex STATIONS.length)^[STATIONS.length] 0 = 0 := by
  have h := claim4_station_wraparound
  have h7 := h.2.2.2.2.2.2 0 (by decide)
  exact ⟨by decide, by decide,
    h.2.2.2.2.2.1 [true, false, false, true] 0 (by decide), h7.1, h7.2.2⟩

theorem mpv_socket_path_ne_volume_flag (pid : Nat) (fl : String)
    (hfl : fl.length < 19) :
    ("/tmp/mpv_lofi_" ++ toString pid ++ ".sock") ≠ fl := by
  intro h
  have hl := congrArg String.length h
  rw [String.length_append, String.length_append] at hl
  have h1 : ("/tmp/mpv_lofi_" : String).length = 14 := rfl
  have h2 : (".sock" : String).length = 5 := rfl
  omega

theorem volumeArgOf_build_ffplay (url : String) (v pid : Nat) :
    volumeArgOf (build_player_args PlayerType.Ffplay url v pid).2.1 =
      some (toString v) := by
  simp [build_player_args, volumeArgOf]

theorem volumeArgOf_build_mpv (url : String) (v pid : Nat) :
    volumeArgOf (build_player_args PlayerType.Mpv url v pid).2.1 =
      some (toString v) := by
  have h1 := mpv_socket_path_ne_volume_flag pid "-volume" (by decide)
  have h2 := mpv_socket_path_ne_volume_flag pid "--volume" (by decide)
  simp [build_player_args, volumeArgOf, h1, h2]

theorem handleVolumeUp_respawn (url : String) (pid : Nat) (conn wr : Bool)
    (s : VolumeControl) :
    ∀ r, (handleVolumeUp url pid conn wr s).2 = some r →
      r = build_player_args s.player_type url
            (handleVolumeUp url pid conn wr s).1.volume pid ∧
      volumeArgOf r.2.1 =
        some (toString (handleVolumeUp url pid conn wr s).1.volume) := by
  intro r hr
  cases hpt : s.player_type <;> cases hm : s.muted <;> cases hsock : s.mpv_socket <;>
    cases conn <;> cases wr <;>
      simp_all [handleVolumeUp, apply_volume, increase_volume, Except.toBool]
  all_goals (subst hr; simp [volumeArgOf_build_ffplay, volumeArgOf_build_mpv])

theorem handleVolumeDown_respawn (url : String) (pid : Nat) (conn wr : Bool)
    (s : VolumeControl) :
    ∀ r, (handleVolumeDown url pid conn wr s).2 = some r →
      r = build_player_args s.player_type url
            (handleVolumeDown url pid conn wr s).1.volume pid ∧
      volumeArgOf r.2.1 =
        some (toString (handleVolumeDown url pid conn wr s).1.volume) := by
  intro r hr
  cases hpt : s.player_type <;> cases hm : s.muted <;> cases hsock : s.mpv_socket <;>
    cases conn <;> cases wr <;>
      simp_all [handleVolumeDown, apply_volume, decrease_volume, Except.toBool]
  all_goals (subst hr; simp [volumeArgOf_build_ffplay, volumeArgOf_build_mpv])

/-- C5: whenever a volume key press falls back to kill-and-respawn (because
apply_volume reported failure), the replacement is launched with exactly the
launch arguments built for the just-updated stored volume, and those
arguments carry that volume right after the backend's volume flag; in
particular a volume-up from 70 on a restart-requiring backend respawns at
75. -/
theorem claim5_respawn_volume (url : String) (pid : Nat) (conn wr : Bool)
    (s : VolumeControl) :
    (∀ r, (handleVolumeUp url pid conn wr s).2 = some r →
      r = build_player_args s.player_type url
            (handleVolumeUp url pid conn wr s).1.volume pid ∧
      volumeArgOf r.2.1 =
        some (toString (handleVolumeUp url pid conn wr s).1.volume)) ∧
    (∀ r, (handleVolumeDown url pid conn wr s).2 = some r →
      r = build_player_args s.player_type url
            (handleVolumeDown url pid conn wr s).1.volume pid ∧
      volumeArgOf r.2.1 =
        some (toString (handleVolumeDown url pid conn wr s).1.volume)) ∧
    (s.muted = false →
      (handleVolumeUp url pid conn wr s).1.volume = min (s.volume + 5) 100 ∧
      (handleVolumeDown url pid conn wr s).1.volume = s.volume - 5) := by
  refine ⟨handleVolumeUp_respawn url pid conn wr s,
    handleVolumeDown_respawn url pid conn wr s, fun hm => ?_⟩
  have hu := (handleVolumeUp_fields url pid conn wr s).1
  have hd := (handleVolumeDown_fields url pid conn wr s).1
  rw [hm] at hu hd
  simp only [Bool.false_eq_true, if_false] at hu hd
  exact ⟨by rw [hu]; simp [increase_volume], by rw [hd]; simp [decrease_volume]⟩

/-- Witness for C5 at the spec's example: ffplay (a backend requiring
restart) at volume 70, unmuted; a volume-up respawns and the launch
arguments carry volume 75. -/
theorem claim5_respawn_volume_witness :
    (handleVolumeUp "https://stream.zeno.fm/0r0xa792kwzuv" 7 false false
        (VolumeControl.new PlayerType.Ffplay)).1.volume = 75 ∧
    (handleVolumeUp "https://stream.zeno.fm/0r0xa792kwzuv" 7 false false
        (VolumeControl.new PlayerType.Ffplay)).2 =
      some (build_player_args PlayerType.Ffplay
        "https://stream.zeno.fm/0r0xa792kwzuv" 75 7) ∧
    volumeArgOf ["-nodisp", "-autoexit", "-loglevel", "quiet",
        "-volume", "75", "https://stream.zeno.fm/0r0xa792kwzuv"] = some "75" := by
  have hr : (handleVolumeUp "https://stream.zeno.fm/0r0xa792kwzuv" 7 false false
      (VolumeControl.new PlayerType.Ffplay)).2 =
      some (build_player_args PlayerType.Ffplay
        "https://stream.zeno.fm/0r0xa792kwzuv" 75 7) := by decide
  have h5 := (claim5_respawn_volume "https://stream.zeno.fm/0r0xa792kwzuv" 7
    false false (VolumeControl.new PlayerType.Ffplay)).1 _ hr
  refine ⟨by decide, hr, ?_⟩
  have := h5.2
  revert this
  decide

/-- C6 counterexample: an mpv session with a live control-socket path whose
connect fails (conn = false).  apply_volume nonetheless reports success, so
the volume-up handler performs no respawn: the process is left untouched and
the new volume is silently dropped, contradicting the claim that a failed
connect to the mpv control socket must trigger the respawn fallback. -/
theorem claim6_counterexample :
    apply_volume
      (VolumeControl.mk 75 PlayerType.Mpv (some "/tmp/mpv_lofi_9.sock") false 70)
      false true = Except.ok () ∧
    (handleVolumeUp "u" 9 false true
      (VolumeControl.mk 70 PlayerType.Mpv (some "/tmp/mpv_lofi_9.sock") false 70)).2 = none := by
  exact ⟨rfl, rfl⟩

/-- C6 (amended): a volume operation falls back to kill-and-respawn exactly
when apply_volume reports failure, which happens iff the backend is ffplay
(structurally lacks runtime volume), or mpv without a control socket, or mpv
whose socket write fails after a successful connect.  A failed connect on
the mpv control socket, however, is silently ignored: apply_volume reports
success and no respawn occurs.  None of these conditions is surfaced as an
error — the handler always returns a usable state. -/
theorem claim6_inplace_fallback (url : String) (pid : Nat) (conn wr : Bool)
    (s : VolumeControl) :
    ((apply_volume s conn wr).isOk = false ↔
      (s.player_type = PlayerType.Ffplay ∨
       (s.player_type = PlayerType.Mpv ∧ s.mpv_socket = none) ∨
       (s.player_type = PlayerType.Mpv ∧ s.mpv_socket ≠ none ∧
        conn = true ∧ wr = false))) ∧
    ((handleVolumeUp url pid conn wr s).2.isSome =
      !(apply_volume (if s.muted then s else increase_volume s) conn wr).isOk) ∧
    (s.player_type = PlayerType.Mpv → s.mpv_socket ≠ none → conn = false →
      (handleVolumeUp url pid conn wr s).2 = none) := by
  refine ⟨?_, ?_, ?_⟩
  · cases hpt : s.player_type <;> cases hsock : s.mpv_socket <;>
      cases conn <;> cases wr <;>
        simp_all [apply_volume, Except.toBool]
  · unfold handleVolumeUp
    cases hm : s.muted
    · simp only [hm, Bool.false_eq_true, if_false]
      cases hok : (apply_volume (increase_volume s) conn wr).isOk <;> simp [hok]
    · simp only [hm, if_true]
      cases hok : (apply_volume s conn wr).isOk <;> simp [hok]
  · intro hpt hsock hconn
    cases hs : s.mpv_socket with
    | none => exact absurd hs hsock
    | some sp =>
      cases hm : s.muted <;>
        simp_all [handleVolumeUp, apply_volume, increase_volume, Except.toBool]

/-- Witness for C6 (amended): an mpv state with a socket whose connect fails
is left alone (no respawn), while an ffplay state always respawns. -/
theorem claim6_inplace_fallback_witness :
    (handleVolumeUp "u" 9 false true
      (VolumeControl.mk 70 PlayerType.Mpv (some "/tmp/mpv_lofi_9.sock") false 70)).2 = none ∧
    (handleVolumeUp "u" 9 true true
      (VolumeControl.mk 70 PlayerType.Ffplay none false 70)).2.isSome = true := by
  have h1 := claim6_inplace_fallback "u" 9 false true
    (VolumeControl.mk 70 PlayerType.Mpv (some "/tmp/mpv_lofi_9.sock") false 70)
  have h2 := claim6_inplace_fallback "u" 9 true true
    (VolumeControl.mk 70 PlayerType.Ffplay none false 70)
  exact ⟨h1.2.2 rfl (by simp) rfl, by rw [h2.2.1]; decide⟩

/-- C7 counterexample: afplay has genuine pause/resume capability (a
process-suspend signal; apply_mute succeeds in place when a child pid is
live), yet the F12/m mute key handler unconditionally kill-and-respawns:
it produces a fresh launch command instead of applying the mute in place. -/
theorem claim7_counterexample :
    apply_mute (toggle_mute (VolumeControl.new PlayerType.Afplay))
      true true true true (some 5) = Except.ok () ∧
    (handleF12 "u" 3 (VolumeControl.new PlayerType.Afplay)).2 =
      build_player_args PlayerType.Afplay "u" 0 3 := by
  exact ⟨rfl, rfl⟩

/-- C7 (amended): on the F8 play/pause handler, a mute toggle on a backend
with genuine pause/resume capability is applied in place without respawn
(mpv with a reachable, writable control socket via a pause command; afplay
with a live child pid via a suspend signal), and ffplay — lacking such
capability — falls back to kill-and-respawn at the new effective volume
(0 when muting, the restored value when unmuting).  The F12/m mute handler,
however, always kill-and-respawns at the new effective volume regardless of
backend capability. -/
theorem claim7_mute_inplace (url : String) (pid : Nat)
    (vconn vwrite : Bool) (cp : Option Nat) (p : Nat) (s : VolumeControl) :
    (s.player_type = PlayerType.Mpv → s.mpv_socket ≠ none →
      (handleF8 url pid true true vconn vwrite cp s).2 = none) ∧
    (s.player_type = PlayerType.Afplay →
      (handleF8 url pid true true vconn vwrite (some p) s).2 = none) ∧
    (s.player_type = PlayerType.Ffplay →
      (handleF8 url pid true true vconn vwrite cp s).2 =
        some (build_player_args PlayerType.Ffplay url (toggle_mute s).volume pid)) ∧
    ((toggle_mute s).volume = if s.muted then s.volume_before_mute else 0) ∧
    ((handleF12 url pid s).2 =
      build_player_args s.player_type url (toggle_mute s).volume pid) := by
  refine ⟨?_, ?_, ?_, ?_, ?_⟩
  · intro hpt hsock
    cases hs : s.mpv_socket with
    | none => exact absurd hs hsock
    | some sp =>
      cases hm : s.muted <;>
        simp_all [handleF8, apply_mute, toggle_mute, Except.toBool]
  · intro hpt
    cases hm : s.muted <;>
      simp_all [handleF8, apply_mute, toggle_mute, Except.toBool]
  · intro hpt
    cases hm : s.muted <;>
      simp_all [handleF8, apply_mute, apply_volume, toggle_mute, Except.toBool]
  · unfold toggle_mute
    cases hm : s.muted <;> simp [hm]
  · simp [handleF12]

/-- Witness for C7 (amended): mpv with a working socket mutes in place via
the F8 handler (no respawn); ffplay on F8 respawns at volume 0 when muting;
and F12 on mpv respawns even with a working socket. -/
theorem claim7_mute_inplace_witness :
    (handleF8 "u" 2 true true true true (some 5)
      (VolumeControl.mk 70 PlayerType.Mpv (some "/tmp/mpv_lofi_2.sock") false 70)).2 = none ∧
    (handleF8 "u" 2 true true true true (some 5)
      (VolumeControl.mk 70 PlayerType.Ffplay none false 70)).2 =
      some (build_player_args PlayerType.Ffplay "u" 0 2) ∧
    (handleF12 "u" 2
      (VolumeControl.mk 70 PlayerType.Mpv (some "/tmp/mpv_lofi_2.sock") false 70)).2 =
      build_player_args PlayerType.Mpv "u" 0 2 := by
  have h1 := claim7_mute_inplace "u" 2 true true (some 5) 5
    (VolumeControl.mk 70 PlayerType.Mpv (some "/tmp/mpv_lofi_2.sock") false 70)
  have h2 := claim7_mute_inplace "u" 2 true true (some 5) 5
    (VolumeControl.mk 70 PlayerType.Ffplay none false 70)
  refine ⟨h1.1 rfl (by simp), ?_, ?_⟩
  · have := h2.2.2.1 rfl
    rw [this]
    rfl
  · have := h1.2.2.2.2
    rw [this]
    rfl

/-- C8: if the session is muted before a station switch (either direction),
then after the switch the muted flag is still true, the mute is re-applied
to the freshly spawned process, the respawn is launched at the stored volume
(0 under the mute invariant, hence effective volume 0), and the stored
volume itself is unchanged. -/
theorem claim8_mute_survives_switch (forward : Bool) (pid i : Nat)
    (s : VolumeControl) (h : s.muted = true) :
    (handleStationSwitch forward pid i s).vc.muted = true ∧
    (handleStationSwitch forward pid i s).muteReapplied = true ∧
    (handleStationSwitch forward pid i s).respawn =
      build_player_args s.player_type
        (STATIONS.getD (handleStationSwitch forward pid i s).station_index
          { name := "", url := "" }).url s.volume pid ∧
    (handleStationSwitch forward pid i s).vc.volume = s.volume := by
  unfold handleStationSwitch
  simp [h]

/-- Witness for C8: a muted mpv session (stored volume 0) switching to the
next station stays muted, re-applies mute, and respawns station 2 at
volume 0. -/
theorem claim8_mute_survives_switch_witness :
    (handleStationSwitch true 4 0
      (VolumeControl.mk 0 PlayerType.Mpv (some "/tmp/mpv_lofi_4.sock") true 70)).vc.muted = true ∧
    (handleStationSwitch true 4 0
      (VolumeControl.mk 0 PlayerType.Mpv (some "/tmp/mpv_lofi_4.sock") true 70)).muteReapplied = true ∧
    (handleStationSwitch true 4 0
      (VolumeControl.mk 0 PlayerType.Mpv (some "/tmp/mpv_lofi_4.sock") true 70)).respawn =
      build_player_args PlayerType.Mpv "https://stream.zeno.fm/v5reddyk8rhvv" 0 4 := by
  have h := claim8_mute_survives_switch true 4 0
    (VolumeControl.mk 0 PlayerType.Mpv (some "/tmp/mpv_lofi_4.sock") true 70) rfl
  refine ⟨h.1, h.2.1, ?_⟩
  rw [h.2.2.1]
  rfl

theorem toggle_mute_inv (s : VolumeControl) (h : VCInv s) :
    VCInv (toggle_mute s) := by
  obtain ⟨h1, h2, h3⟩ := h
  unfold VCInv toggle_mute
  cases hm : s.muted <;> simp_all

theorem handleF8_fields (url : String) (pid : Nat) (pconn pwrite vconn vwrite : Bool)
    (cp : Option Nat) (s : VolumeControl) :
    (handleF8 url pid pconn pwrite vconn vwrite cp s).1.volume = (toggle_mute s).volume ∧
    (handleF8 url pid pconn pwrite vconn vwrite cp s).1.muted = (toggle_mute s).muted ∧
    (handleF8 url pid pconn pwrite vconn vwrite cp s).1.volume_before_mute =
      (toggle_mute s).volume_before_mute := by
  simp only [handleF8]
  split <;> simp

theorem handleF12_fields (url : String) (pid : Nat) (s : VolumeControl) :
    (handleF12 url pid s).1.volume = (toggle_mute s).volume ∧
    (handleF12 url pid s).1.muted = (toggle_mute s).muted ∧
    (handleF12 url pid s).1.volume_before_mute = (toggle_mute s).volume_before_mute := by
  simp [handleF12]

theorem handleStationSwitch_fields (forward : Bool) (pid i : Nat)
    (s : VolumeControl) :
    (handleStationSwitch forward pid i s).vc.volume = s.volume ∧
    (handleStationSwitch forward pid i s).vc.muted = s.muted ∧
    (handleStationSwitch forward pid i s).vc.volume_before_mute =
      s.volume_before_mute := by
  unfold handleStationSwitch
  cases hm : s.muted <;> simp [hm]

theorem step_preserves_inv (op : Op) (o : Oracle) (st : Nat × VolumeControl)
    (h : VCInv st.2) : VCInv (step op o st).2 := by
  obtain ⟨h1, h2, h3⟩ := h
  cases op
  case volUp =>
    have hf := handleVolumeUp_fields o.url o.pid o.conn o.wr st.2
    simp only [step]
    refine ⟨fun hmut => ?_, ?_, ?_⟩
    · rw [hf.2.1] at hmut
      rw [hf.1, if_pos hmut]
      exact h1 hmut
    · rw [hf.1]
      split
      · exact h2
      · simp [increase_volume]
    · rw [hf.2.2]
      exact h3
  case volDown =>
    have hf := handleVolumeDown_fields o.url o.pid o.conn o.wr st.2
    simp only [step]
    refine ⟨fun hmut => ?_, ?_, ?_⟩
    · rw [hf.2.1] at hmut
      rw [hf.1, if_pos hmut]
      exact h1 hmut
    · rw [hf.1]
      split
      · exact h2
      · simp [decrease_volume]
        omega
    · rw [hf.2.2]
      exact h3
  case muteF8 =>
    have hf := handleF8_fields o.url o.pid o.pconn o.pwrite o.vconn o.vwrite o.childPid st.2
    have ht := toggle_mute_inv st.2 ⟨h1, h2, h3⟩
    simp only [step]
    refine ⟨fun hmut => ?_, ?_, ?_⟩
    · rw [hf.2.1] at hmut
      rw [hf.1]
      exact ht.1 hmut
    · rw [hf.1]
      exact ht.2.1
    · rw [hf.2.2]
      exact ht.2.2
  case muteF12 =>
    have hf := handleF12_fields o.url o.pid st.2
    have ht := toggle_mute_inv st.2 ⟨h1, h2, h3⟩
    simp only [step]
    refine ⟨fun hmut => ?_, ?_, ?_⟩
    · rw [hf.2.1] at hmut
      rw [hf.1]
      exact ht.1 hmut
    · rw [hf.1]
      exact ht.2.1
    · rw [hf.2.2]
      exact ht.2.2
  case stationPrev =>
    have hf := handleStationSwitch_fields false o.pid st.1 st.2
    simp only [step]
    refine ⟨fun hmut => ?_, ?_, ?_⟩
    · rw [hf.2.1] at hmut
      rw [hf.1]
      exact h1 hmut
    · rw [hf.1]
      exact h2
    · rw [hf.2.2]
      exact h3
  case stationNext =>
    have hf := handleStationSwitch_fields true o.pid st.1 st.2
    simp only [step]
    refine ⟨fun hmut => ?_, ?_, ?_⟩
    · rw [hf.2.1] at hmut
      rw [hf.1]
      exact h1 hmut
    · rw [hf.1]
      exact h2
    · rw [hf.2.2]
      exact h3

theorem run_inv (l : List (Op × Oracle)) :
    ∀ st : Nat × VolumeControl, VCInv st.2 → VCInv (run l st).2 := by
  induction l with
  | nil => intro st h; simpa [run] using h
  | cons p rest ih =>
    intro st h
    simpa [run, List.foldl_cons] using ih _ (step_preserves_inv p.1 p.2 st h)

/-- C9: in every state reachable from the initial control state (volume 70,
unmuted) by any sequence of volume-up, volume-down, mute-toggle (either key)
and station-switch operations under arbitrary IO outcomes, muted = true
implies the stored volume field itself is 0. -/
theorem claim9_muted_volume_zero (pt : PlayerType) (l : List (Op × Oracle)) :
    (run l (0, VolumeControl.new pt)).2.muted = true →
    (run l (0, VolumeControl.new pt)).2.volume = 0 := by
  have h0 : VCInv (VolumeControl.new pt) :=
    ⟨fun h => by simp [VolumeControl.new] at h,
     by simp [VolumeControl.new],
     by simp [VolumeControl.new]⟩
  exact (run_inv l (0, VolumeControl.new pt) h0).1

/-- Witness for C9: mute via F12, then a volume-up, then a station switch;
the final state is muted and its stored volume field is 0. -/
theorem claim9_muted_volume_zero_witness :
    (run [(Op.muteF12, Oracle.mk "u" 1 false false false false false false none),
          (Op.volUp, Oracle.mk "u" 1 false false false false false false none),
          (Op.stationNext, Oracle.mk "u" 1 false false false false false false none)]
        (0, VolumeControl.new PlayerType.Ffplay)).2.muted = true ∧
    (run [(Op.muteF12, Oracle.mk "u" 1 false false false false false false none),
          (Op.volUp, Oracle.mk "u" 1 false false false false false false none),
          (Op.stationNext, Oracle.mk "u" 1 false false false false false false none)]
        (0, VolumeControl.new PlayerType.Ffplay)).2.volume = 0 := by
  have h := claim9_muted_volume_zero PlayerType.Ffplay
    [(Op.muteF12, Oracle.mk "u" 1 false false false false false false none),
     (Op.volUp, Oracle.mk "u" 1 false false false false false false none),
     (Op.stationNext, Oracle.mk "u" 1 false false false false false false none)]
  exact ⟨by decide, h (by decide)⟩

/-- C10 counterexample: at unmuted volume 101 (> 100) the volume-bar
computation yields filled = 30 ≤ bar_len, so the unsigned subtraction
bar_len - filled does NOT underflow there: the claim that the subtraction
would panic for a (hypothetical) volume > 100 is false at volume 101. -/
theorem claim10_counterexample :
    100 < (UiState.mk 0 101 false 0).volume ∧
    filledBar (UiState.mk 0 101 false 0) = 30 ∧
    filledBar (UiState.mk 0 101 false 0) ≤ bar_len := by
  exact ⟨by decide, by decide, by decide⟩

/-- C10 (amended): for every UiState with volume ≤ 100 the filled segment is
at most bar_len = 30, so the unsigned subtraction bar_len - filled in
draw_ui cannot underflow; while muted the filled segment is 0 regardless of
volume; and a hypothetical unmuted volume of 104 or more makes filled exceed
bar_len and the subtraction underflow (volumes 101-103 still give
filled = 30) — volume ≤ 100 is a sufficient precondition for the
renderer. -/
theorem claim10_volume_bar_safety (st : UiState) :
    (st.volume ≤ 100 → filledBar st ≤ bar_len) ∧
    (st.muted = true → filledBar st = 0) ∧
    (st.muted = false → 104 ≤ st.volume → bar_len < filledBar st) := by
  unfold filledBar bar_len
  cases hm : st.muted <;> (simp_all; try omega)

/-- Witness for C10 (amended): the initial UI state (volume 70) fills 21 of
30 cells; a muted state fills 0; an unmuted state at the hypothetical volume
104 fills 31 > 30, underflowing the subtraction. -/
theorem claim10_volume_bar_safety_witness :
    filledBar UiState.new ≤ bar_len ∧
    filledBar (UiState.mk 0 50 true 0) = 0 ∧
    bar_len < filledBar (UiState.mk 0 104 false 0) := by
  have h1 := claim10_volume_bar_safety UiState.new
  have h2 := claim10_volume_bar_safety (UiState.mk 0 50 true 0)
  have h3 := claim10_volume_bar_safety (UiState.mk 0 104 false 0)
  exact ⟨h1.1 (by decide), h2.2.1 rfl, h3.2.2 rfl (by decide)⟩

end LofiRs
